import Mathlib

/-!
Verification of the authentication core of the PureMilk dairy-management
backend (src/backend/server.py): password verification, JWT issue/verify,
login with failed-attempt counting and temporary lockout, registration with
the first-registrant-is-admin rule, and per-request authentication.

Foreign library calls (bcrypt's checkpw/hashpw and the HMAC signing
primitive used by PyJWT) are parameters of the model, bundled in `Env`;
timestamps (`datetime.utcnow()`) are modelled as natural-number seconds, and
the MongoDB users collection as a `List User` (lookups mirror `find_one`,
writes mirror `update_one` / `insert_one`).
-/

namespace PureMilk

/-- Roles, from `class UserRole(str, Enum)` in server.py. -/
inductive UserRole where
  | admin
  | customer
deriving DecidableEq, Repr

/-- The string payload of the enum (`UserRole.ADMIN.value` etc.). -/
def UserRole.value : UserRole → String
  | .admin => "admin"
  | .customer => "customer"

/-- The `User` pydantic model of server.py (auth-relevant fields).
`password` stores the bcrypt hash; `failed_login_attempts` is a Python int,
modelled as `Int` so that non-negativity is a provable invariant rather than
a typing artifact; timestamps are seconds. -/
structure User where
  id : String
  email : String
  password : String
  role : UserRole
  name : String
  phone : String
  created_at : Nat
  updated_at : Nat
  last_login : Option Nat
  is_active : Bool
  failed_login_attempts : Int
  locked_until : Option Nat
deriving DecidableEq, Repr

/-- The `UserCreate` request model (field-format validation happens in
pydantic before the handler runs and is not needed by the claims here). -/
structure UserCreate where
  email : String
  password : String
  role : UserRole
  name : String
  phone : String
deriving DecidableEq, Repr

/-- JWT payload as built by `create_jwt_token`: user_id, role, iat, exp, jti. -/
structure JwtPayload where
  user_id : String
  role : String
  iat : Nat
  exp : Nat
  jti : String
deriving DecidableEq, Repr

/-- A signed token: payload, pinned algorithm name, and the signature the
library computed over the payload with the server secret. -/
structure Jwt where
  payload : JwtPayload
  alg : String
  sig : String
deriving DecidableEq, Repr

/-- HTTP error as raised via `HTTPException(status_code=..., detail=...)`. -/
structure HTTPError where
  status : Nat
  detail : String
deriving DecidableEq, Repr

/-- Public user view returned by register/login (id/email/role/name only). -/
structure PublicUser where
  id : String
  email : String
  role : UserRole
  name : String
deriving DecidableEq, Repr

/-- Outcome of a register or login handler: an HTTP error, or a token plus
the public user view. -/
inductive AuthResult where
  | err : Nat → String → AuthResult
  | ok : Jwt → PublicUser → AuthResult
deriving DecidableEq, Repr

/-- Foreign dependencies of the auth core: the HMAC signing primitive and
server secret used by PyJWT, bcrypt's `checkpw` (which may raise, modelled
as `Except`), and bcrypt's `hashpw` with the fixed cost factor. -/
structure Env where
  hmac : String → JwtPayload → String
  secret : String
  checkpw : String → String → Except String Bool
  hashpw : String → String

/-- `settings.JWT_ALGORITHM` in server.py. -/
def JWT_ALGORITHM : String := "HS256"

/-- `settings.JWT_EXPIRY_DAYS` default in server.py. -/
def JWT_EXPIRY_DAYS : Nat := 7

/-- Seconds in a day, to express `timedelta(days=...)`. -/
def SECONDS_PER_DAY : Nat := 86400

/-- `timedelta(minutes=30)` used for the lockout window, in seconds. -/
def LOCKOUT_SECONDS : Nat := 30 * 60

/-- `verify_password` of server.py: wraps `bcrypt.checkpw` in try/except and
returns `False` when the library raises (e.g. on a malformed hash). -/
def verify_password (env : Env) (password hashed : String) : Bool :=
  match env.checkpw password hashed with
  | .ok b => b
  | .error _ => false

/-- `hash_password` of server.py (the bcrypt call itself is foreign). -/
def hash_password (env : Env) (password : String) : String :=
  env.hashpw password

/-- `create_jwt_token` of server.py: payload carries user_id, role, iat,
exp = now + 7 days, and a fresh jti; signed with the pinned algorithm. -/
def create_jwt_token (env : Env) (now : Nat) (jti : String)
    (user_id : String) (role : String) : Jwt :=
  let payload : JwtPayload :=
    { user_id := user_id, role := role, iat := now,
      exp := now + JWT_EXPIRY_DAYS * SECONDS_PER_DAY, jti := jti }
  { payload := payload, alg := JWT_ALGORITHM, sig := env.hmac env.secret payload }

/-- `verify_jwt_token` of server.py via `jwt.decode`: a wrong algorithm or a
bad signature is `InvalidTokenError` (401 "Invalid token"); a good signature
with `exp` in the past is `ExpiredSignatureError` (401 "Token has expired"). -/
def verify_jwt_token (env : Env) (now : Nat) (tok : Jwt) :
    Except HTTPError JwtPayload :=
  if tok.alg = JWT_ALGORITHM ∧ tok.sig = env.hmac env.secret tok.payload then
    if tok.payload.exp < now then .error ⟨401, "Token has expired"⟩
    else .ok tok.payload
  else .error ⟨401, "Invalid token"⟩

/-- The lock test `user.locked_until and user.locked_until > datetime.utcnow()`. -/
def lockedNow (u : User) (now : Nat) : Bool :=
  match u.locked_until with
  | some t => decide (now < t)
  | none => false

/-- `db.users.find_one({"email": email})`: first stored user with the email. -/
def findByEmail (store : List User) (email : String) : Option User :=
  store.find? (fun u => u.email = email)

/-- `db.users.update_one({"id": uid}, ...)`: replace the first user whose id
matches (ids are unique in the real store; `update_one` touches one doc). -/
def update_one_by_id : List User → String → User → List User
  | [], _, _ => []
  | u :: rest, uid, nu =>
      if u.id = uid then nu :: rest else u :: update_one_by_id rest uid nu

/-- The body of `login_user` (server.py lines 512–557) once the user record
has been fetched: lock check, password verification with failed-attempt
increment and lockout at 5, active check, then counter reset + token issue.
Returns the outcome and the updated user record when a write occurred. -/
def login_attempt (env : Env) (now : Nat) (jti : String)
    (user : User) (password : String) : AuthResult × Option User :=
  if lockedNow user now then
    (.err 401 "Account temporarily locked", none)
  else if verify_password env password user.password = false then
    let failed_attempts := user.failed_login_attempts + 1
    let user' :=
      if 5 ≤ failed_attempts then
        { user with failed_login_attempts := failed_attempts,
                    locked_until := some (now + LOCKOUT_SECONDS) }
      else
        { user with failed_login_attempts := failed_attempts }
    (.err 401 "Invalid credentials", some user')
  else if user.is_active = false then
    (.err 401 "Account is disabled", none)
  else
    let user' := { user with failed_login_attempts := 0, locked_until := none,
                             last_login := some now }
    (.ok (create_jwt_token env now jti user.id user.role.value)
       { id := user.id, email := user.email, role := user.role, name := user.name },
     some user')

/-- `login_user` (server.py lines 499–562) over the users collection: unknown
email fails with the same generic message as a wrong password (after a dummy
hash call that has no state effect); otherwise the fetched record goes
through `login_attempt` and any write is applied to the store. -/
def login_user (env : Env) (now : Nat) (jti : String) (store : List User)
    (email password : String) : AuthResult × List User :=
  match findByEmail store email with
  | none => (.err 401 "Invalid credentials", store)
  | some user =>
      match login_attempt env now jti user password with
      | (out, some u') => (out, update_one_by_id store user.id u')
      | (out, none) => (out, store)

/-- `db.users.count_documents({"role": "admin"})`. -/
def count_admins (store : List User) : Nat :=
  store.countP (fun u => u.role = UserRole.admin)

/-- `register_user` (server.py lines 449–497): an admin-role request is
rejected first when an admin already exists (status 403 in the source);
then a duplicate email is rejected with 400; otherwise the user is created
with a hashed password and fresh counters, and a token is issued. -/
def register_user (env : Env) (now : Nat) (jti newId : String)
    (store : List User) (data : UserCreate) : AuthResult × List User :=
  if data.role = UserRole.admin ∧ 0 < count_admins store then
    (.err 403 "Admin already exists. Only the first user can register as admin.",
     store)
  else
    match findByEmail store data.email with
    | some _ => (.err 400 "User already exists", store)
    | none =>
        let user : User :=
          { id := newId, email := data.email,
            password := hash_password env data.password,
            role := data.role, name := data.name, phone := data.phone,
            created_at := now, updated_at := now, last_login := none,
            is_active := true, failed_login_attempts := 0, locked_until := none }
        (.ok (create_jwt_token env now jti user.id user.role.value)
           { id := user.id, email := user.email, role := user.role,
             name := user.name },
         store ++ [user])

/-- `get_current_user` (server.py lines 362–390): verify the bearer token
(its own 401s re-raise unchanged), fetch the user by subject id, then check
existence, active status and lock, and apply the last-login write. A raised
persistence exception (fetch or write), modelled as the `Except.error` case,
is caught by the blanket handler and surfaces as 401 "Authentication failed". -/
def get_current_user (env : Env) (now : Nat) (tok : Jwt)
    (find_result : Except String (Option User))
    (update_result : Except String Unit) : Except HTTPError User :=
  match verify_jwt_token env now tok with
  | .error e => .error e
  | .ok _payload =>
      match find_result with
      | .error _ => .error ⟨401, "Authentication failed"⟩
      | .ok none => .error ⟨401, "User not found"⟩
      | .ok (some user) =>
          if user.is_active = false then
            .error ⟨401, "User account is disabled"⟩
          else if lockedNow user now then
            .error ⟨401, "User account is temporarily locked"⟩
          else
            match update_result with
            | .error _ => .error ⟨401, "Authentication failed"⟩
            | .ok _ => .ok user

/-- `login_user` with the persistence fetch allowed to raise: the blanket
`except Exception` of the handler turns a store failure into 500 "Login
failed"; otherwise the flow is exactly `login_attempt`. -/
def login_user_db (env : Env) (now : Nat) (jti : String)
    (find_result : Except String (Option User)) (password : String) :
    AuthResult × Option User :=
  match find_result with
  | .error _ => (.err 500 "Login failed", none)
  | .ok none => (.err 401 "Invalid credentials", none)
  | .ok (some user) => login_attempt env now jti user password

/-- The user record written by the wrong-password branch of `login_user`:
counter incremented, and the lock set when the incremented counter reaches 5. -/
def wrongPwUpdate (u : User) (now : Nat) : User :=
  if 5 ≤ u.failed_login_attempts + 1 then
    { u with failed_login_attempts := u.failed_login_attempts + 1,
             locked_until := some (now + LOCKOUT_SECONDS) }
  else
    { u with failed_login_attempts := u.failed_login_attempts + 1 }

/-- The user record written by the success branch of `login_user`. -/
def successUpdate (u : User) (now : Nat) : User :=
  { u with failed_login_attempts := 0, locked_until := none,
           last_login := some now }

/-- Stores reachable from a store of freshly registered users (zero counter,
no lock) by any sequence of login attempts and registrations. A lock that
has expired without an intervening successful login is still recorded in
such a store: only the success branch clears `locked_until`. -/
inductive Reachable (env : Env) : List User → Prop where
  | init : ∀ store,
      (∀ u ∈ store, u.failed_login_attempts = 0 ∧ u.locked_until = none) →
      Reachable env store
  | login : ∀ store now jti email password, Reachable env store →
      Reachable env (login_user env now jti store email password).2
  | reg : ∀ store now jti newId data, Reachable env store →
      Reachable env (register_user env now jti newId store data).2

/-- Invariant: whenever a lock timestamp is recorded (future or expired),
the failed-attempt counter already reached the threshold of 5. -/
def LockCounterInv (store : List User) : Prop :=
  ∀ u ∈ store, ∀ t, u.locked_until = some t → 5 ≤ u.failed_login_attempts

/-- A concrete, fully computable environment used to evaluate the model on
closed inputs: hashing appends a tag, `checkpw` never raises and compares
against that tagged form, and the signing primitive is a concrete function. -/
def envX : Env :=
  { hmac := fun s p => s ++ "." ++ p.user_id ++ "." ++ p.role ++ "." ++ p.jti,
    secret := "server-secret",
    checkpw := fun p h => .ok (decide (h = p ++ "#h")),
    hashpw := fun p => p ++ "#h" }

/-- An environment whose `checkpw` raises on every input, standing for a
store whose hash column is malformed. -/
def envBadHash : Env :=
  { envX with checkpw := fun _ _ => .error "Invalid salt" }

/-- A stored admin account in the healthy state. -/
def uAlice : User :=
  { id := "u1", email := "alice@x.com", password := "Passw0rd1#h",
    role := .admin, name := "Alice", phone := "+15551234567",
    created_at := 0, updated_at := 0, last_login := none,
    is_active := true, failed_login_attempts := 0, locked_until := none }

/-- A deactivated customer whose lock has already expired at time 200. -/
def uBobInactive : User :=
  { id := "u2", email := "bob@x.com", password := "Secret9z#h",
    role := .customer, name := "Bob", phone := "+15552222222",
    created_at := 0, updated_at := 0, last_login := none,
    is_active := false, failed_login_attempts := 5, locked_until := some 100 }

/-- A customer currently locked until time 1000. -/
def uDanLocked : User :=
  { id := "u3", email := "dan@x.com", password := "GoodPw1#h",
    role := .customer, name := "Dan", phone := "+15553333333",
    created_at := 0, updated_at := 0, last_login := none,
    is_active := true, failed_login_attempts := 5, locked_until := some 1000 }

/-- A fresh active customer used to build reachable stores. -/
def uEve : User :=
  { id := "u9", email := "eve@x.com", password := "Topsecret1#h",
    role := .customer, name := "Eve", phone := "+15559999999",
    created_at := 0, updated_at := 0, last_login := none,
    is_active := true, failed_login_attempts := 0, locked_until := none }

/-- uEve after five wrong-password attempts at time 0: counter 5, locked
until 1800. -/
def uEveLocked : User :=
  { uEve with failed_login_attempts := 5, locked_until := some 1800 }

/-- The store reached from `[uEve]` after five wrong-password attempts. -/
def storeEveLocked : List User := [uEveLocked]

/-- A well-formed token for user u1, issued at time 0 by `envX`. -/
def tokValid : Jwt := create_jwt_token envX 0 "j5" "u1" "admin"

/-! ## Basic lemmas about the store primitives -/

theorem findByEmail_mem {store : List User} {email : String} {u : User}
    (h : findByEmail store email = some u) : u ∈ store :=
  List.mem_of_find?_eq_some h

theorem update_one_length (s : List User) (uid : String) (nu : User) :
    (update_one_by_id s uid nu).length = s.length := by
  induction s with
  | nil => rfl
  | cons a t ih =>
    simp only [update_one_by_id]
    split <;> simp [ih]

theorem update_one_mem {s : List User} {uid : String} {nu w : User}
    (h : w ∈ update_one_by_id s uid nu) : w ∈ s ∨ w = nu := by
  induction s with
  | nil => simp [update_one_by_id] at h
  | cons a t ih =>
    simp only [update_one_by_id] at h
    split at h
    · rcases List.mem_cons.mp h with h1 | h1
      · exact Or.inr h1
      · exact Or.inl (List.mem_cons_of_mem _ h1)
    · rcases List.mem_cons.mp h with h1 | h1
      · exact Or.inl (h1 ▸ List.mem_cons_self a t)
      · rcases ih h1 with h2 | h2
        · exact Or.inl (List.mem_cons_of_mem _ h2)
        · exact Or.inr h2

theorem update_one_get? (s : List User) (uid : String) (nu : User) :
    ∀ i : Nat,
      (update_one_by_id s uid nu).get? i = s.get? i ∨
      ((update_one_by_id s uid nu).get? i = some nu ∧
        ∃ u, s.get? i = some u ∧ u.id = uid) := by
  induction s with
  | nil => intro i; left; rfl
  | cons a t ih =>
    intro i
    by_cases hcond : a.id = uid
    · simp only [update_one_by_id, if_pos hcond]
      cases i with
      | zero => exact Or.inr ⟨rfl, a, rfl, hcond⟩
      | succ j => left; rfl
    · simp only [update_one_by_id, if_neg hcond]
      cases i with
      | zero => left; rfl
      | succ j => simpa using ih j

theorem nodup_id_unique : ∀ {s : List User}, (s.map User.id).Nodup →
    ∀ {u w : User}, u ∈ s → w ∈ s → u.id = w.id → u = w := by
  intro s
  induction s with
  | nil => intro _ u w hu; simp at hu
  | cons a t ih =>
    intro hnd u w hu hw he
    have hnd' : (User.id a :: t.map User.id).Nodup := by simpa using hnd
    rcases List.nodup_cons.mp hnd' with ⟨hna, hnt⟩
    rcases List.mem_cons.mp hu with h1 | h1 <;> rcases List.mem_cons.mp hw with h2 | h2
    · exact h1.trans h2.symm
    · exfalso
      apply hna
      rw [h1] at he
      rw [he]
      exact List.mem_map_of_mem User.id h2
    · exfalso
      apply hna
      rw [h2] at he
      rw [← he]
      exact List.mem_map_of_mem User.id h1
    · exact ih hnt h1 h2 he

/-! ## Branch lemmas for `login_attempt` and `login_user` -/

theorem login_attempt_locked {env : Env} {now : Nat} {jti : String}
    {user : User} {password : String} (h : lockedNow user now = true) :
    login_attempt env now jti user password =
      (.err 401 "Account temporarily locked", none) := by
  simp [login_attempt, h]

theorem login_attempt_wrong {env : Env} {now : Nat} {jti : String}
    {user : User} {password : String}
    (h1 : lockedNow user now = false)
    (h2 : verify_password env password user.password = false) :
    login_attempt env now jti user password =
      (.err 401 "Invalid credentials", some (wrongPwUpdate user now)) := by
  simp [login_attempt, h1, h2, wrongPwUpdate]

theorem login_attempt_disabled {env : Env} {now : Nat} {jti : String}
    {user : User} {password : String}
    (h1 : lockedNow user now = false)
    (h2 : verify_password env password user.password = true)
    (h3 : user.is_active = false) :
    login_attempt env now jti user password =
      (.err 401 "Account is disabled", none) := by
  simp [login_attempt, h1, h2, h3]

theorem login_attempt_success {env : Env} {now : Nat} {jti : String}
    {user : User} {password : String}
    (h1 : lockedNow user now = false)
    (h2 : verify_password env password user.password = true)
    (h3 : user.is_active = true) :
    login_attempt env now jti user password =
      (.ok (create_jwt_token env now jti user.id user.role.value)
         { id := user.id, email := user.email, role := user.role,
           name := user.name },
       some (successUpdate user now)) := by
  simp [login_attempt, h1, h2, h3, successUpdate]

theorem wrongPwUpdate_failed (u : User) (now : Nat) :
    (wrongPwUpdate u now).failed_login_attempts = u.failed_login_attempts + 1 := by
  unfold wrongPwUpdate
  split <;> rfl

/-- Exhaustive description of `login_attempt`: exactly one of the four
branches fires, together with the guards that selected it. -/
theorem login_attempt_pair_cases (env : Env) (now : Nat) (jti : String)
    (user : User) (password : String) :
    (login_attempt env now jti user password
        = (.err 401 "Account temporarily locked", none) ∧
      lockedNow user now = true) ∨
    (login_attempt env now jti user password
        = (.err 401 "Invalid credentials", some (wrongPwUpdate user now)) ∧
      lockedNow user now = false ∧
      verify_password env password user.password = false) ∨
    (login_attempt env now jti user password
        = (.err 401 "Account is disabled", none) ∧
      lockedNow user now = false ∧
      verify_password env password user.password = true ∧
      user.is_active = false) ∨
    (login_attempt env now jti user password
        = (.ok (create_jwt_token env now jti user.id user.role.value)
             { id := user.id, email := user.email, role := user.role,
               name := user.name },
           some (successUpdate user now)) ∧
      lockedNow user now = false ∧
      verify_password env password user.password = true ∧
      user.is_active = true) := by
  by_cases h1 : lockedNow user now = true
  · exact Or.inl ⟨login_attempt_locked h1, h1⟩
  · have h1' : lockedNow user now = false := by simpa using h1
    by_cases h2 : verify_password env password user.password = false
    · exact Or.inr (Or.inl ⟨login_attempt_wrong h1' h2, h1', h2⟩)
    · have h2' : verify_password env password user.password = true := by simpa using h2
      by_cases h3 : user.is_active = false
      · exact Or.inr (Or.inr (Or.inl ⟨login_attempt_disabled h1' h2' h3, h1', h2', h3⟩))
      · have h3' : user.is_active = true := by simpa using h3
        exact Or.inr (Or.inr (Or.inr ⟨login_attempt_success h1' h2' h3', h1', h2', h3'⟩))

/-- The store after a login is unchanged, or one record was rewritten via
the wrong-password update or the successful-login reset. -/
theorem login_store_cases (env : Env) (now : Nat) (jti : String)
    (store : List User) (email password : String) :
    (login_user env now jti store email password).2 = store ∨
    ∃ u, findByEmail store email = some u ∧
      ((login_user env now jti store email password).2
          = update_one_by_id store u.id (wrongPwUpdate u now) ∨
       (login_user env now jti store email password).2
          = update_one_by_id store u.id (successUpdate u now)) := by
  cases hfe : findByEmail store email with
  | none => left; simp [login_user, hfe]
  | some u =>
    rcases login_attempt_pair_cases env now jti u password with
      ⟨h, _⟩ | ⟨h, _⟩ | ⟨h, _⟩ | ⟨h, _⟩
    · left; simp [login_user, hfe, h]
    · exact Or.inr ⟨u, rfl, Or.inl (by simp [login_user, hfe, h])⟩
    · left; simp [login_user, hfe, h]
    · exact Or.inr ⟨u, rfl, Or.inr (by simp [login_user, hfe, h])⟩

/-- The store after a registration is unchanged, or has one appended user
with a zero counter and no lock. -/
theorem register_store_cases (env : Env) (now : Nat) (jti newId : String)
    (store : List User) (data : UserCreate) :
    (register_user env now jti newId store data).2 = store ∨
    ∃ user : User, (register_user env now jti newId store data).2 = store ++ [user] ∧
      user.failed_login_attempts = 0 ∧ user.locked_until = none := by
  unfold register_user
  split
  · left; rfl
  · cases hfe : findByEmail store data.email with
    | some u => left; simp [hfe]
    | none =>
      exact Or.inr
        ⟨{ id := newId, email := data.email,
           password := hash_password env data.password,
           role := data.role, name := data.name, phone := data.phone,
           created_at := now, updated_at := now, last_login := none,
           is_active := true, failed_login_attempts := 0, locked_until := none },
         by simp [hfe], rfl, rfl⟩

/-- In every reachable store, a recorded lock timestamp — future or already
expired — implies the failed-attempt counter reached the threshold of 5:
only the wrong-password branch sets a lock (at counter ≥ 5), only a
successful login clears it (resetting both together). -/
theorem reachable_lock_inv {env : Env} {store : List User}
    (h : Reachable env store) : LockCounterInv store := by
  induction h with
  | init s h0 =>
    intro u hu t ht
    rcases h0 u hu with ⟨_, hnone⟩
    rw [hnone] at ht
    exact Option.noConfusion ht
  | login s now jti email password hr ih =>
    intro u' hu' t ht
    rcases login_store_cases env now jti s email password with hc | ⟨u, hfe, hc | hc⟩
    · rw [hc] at hu'
      exact ih u' hu' t ht
    · rw [hc] at hu'
      rcases update_one_mem hu' with hm | hm
      · exact ih u' hm t ht
      · subst hm
        have hmem := findByEmail_mem hfe
        rw [wrongPwUpdate_failed]
        by_cases h5 : 5 ≤ u.failed_login_attempts + 1
        · omega
        · have ht' : u.locked_until = some t := by
            simpa [wrongPwUpdate, if_neg h5] using ht
          have := ih u hmem t ht'
          omega
    · rw [hc] at hu'
      rcases update_one_mem hu' with hm | hm
      · exact ih u' hm t ht
      · subst hm
        simp [successUpdate] at ht
  | reg s now jti newId data hr ih =>
    intro u' hu' t ht
    rcases register_store_cases env now jti newId s data with hc | ⟨user, hc, _, hl0⟩
    · rw [hc] at hu'
      exact ih u' hu' t ht
    · rw [hc] at hu'
      rcases List.mem_append.mp hu' with hm | hm
      · exact ih u' hm t ht
      · have he : u' = user := by simpa using hm
        rw [he, hl0] at ht
        exact Option.noConfusion ht

/-- An admin-role registration request with a fresh email. -/
def reqCarolAdmin : UserCreate :=
  { email := "carol@x.com", password := "Adm1nPass", role := .admin,
    name := "Carol", phone := "+15550000001" }

/-- An admin-role registration request reusing uAlice's email. -/
def reqDupAdmin : UserCreate :=
  { email := "alice@x.com", password := "Adm1nPass", role := .admin,
    name := "Alice Again", phone := "+15550000002" }

/-! ## Counterexamples and code-bug evaluations -/

/-- C1 counterexample: the claim quantifies over every account in the
Unlocked state, but for a deactivated account whose lock has expired, a
correct-password login does not succeed and does not clear the counters —
it fails with the disabled-account error, because the active-status check
runs after password verification. -/
theorem inactive_unlock_login_not_success :
    uBobInactive.locked_until = some 100 ∧
    uBobInactive.failed_login_attempts = 5 ∧
    verify_password envX "Secret9z" uBobInactive.password = true ∧
    login_user envX 200 "j1" [uBobInactive] "bob@x.com" "Secret9z"
      = (.err 401 "Account is disabled", [uBobInactive]) ∧
    ∀ tok pu, (login_user envX 200 "j1" [uBobInactive] "bob@x.com" "Secret9z").1
      ≠ AuthResult.ok tok pu := by
  refine ⟨by decide, by decide, by decide, by decide, ?_⟩
  intro tok pu h
  have e : (login_user envX 200 "j1" [uBobInactive] "bob@x.com" "Secret9z").1
      = AuthResult.err 401 "Account is disabled" := by decide
  rw [e] at h
  exact AuthResult.noConfusion h

/-- C2: when an admin already exists, an admin-role registration is rejected
with HTTP status 403 (message "Admin already exists. ..."), not with the 400
Conflict the spec and the repository's own test (backend_test.py, duplicate
registration expects 400) prescribe; no user record is created. -/
theorem admin_conflict_returns_403 :
    count_admins [uAlice] = 1 ∧
    register_user envX 0 "j2" "new-id" [uAlice] reqCarolAdmin
      = (.err 403 "Admin already exists. Only the first user can register as admin.",
         [uAlice]) ∧
    (403 : Nat) ≠ 400 := by decide

/-- C4 counterexample: failed logins all carry status 401, but the
client-visible message is not uniform — a locked account (even with the
correct password) is told "Account temporarily locked" while a wrong
password yields "Invalid credentials", revealing which check failed. -/
theorem login_error_messages_not_uniform :
    verify_password envX "GoodPw1" uDanLocked.password = true ∧
    (login_user envX 0 "j4" [uDanLocked] "dan@x.com" "GoodPw1").1
      = .err 401 "Account temporarily locked" ∧
    (login_user envX 0 "j4" [uAlice] "alice@x.com" "wrongpw").1
      = .err 401 "Invalid credentials" ∧
    "Account temporarily locked" ≠ "Invalid credentials" := by decide

/-- C5: registering an already-used email does not always fail with the 400
"User already exists" Conflict: when the request carries role=admin and an
admin exists, the admin-exists check fires first and the request fails with
403 and a different message, so the request's role changes the failure
class (the repository's own duplicate-registration test expects 400 here). -/
theorem duplicate_email_admin_role_403 :
    findByEmail [uAlice] reqDupAdmin.email = some uAlice ∧
    register_user envX 0 "j3" "new-id2" [uAlice] reqDupAdmin
      = (.err 403 "Admin already exists. Only the first user can register as admin.",
         [uAlice]) ∧
    (register_user envX 0 "j3" "new-id2" [uAlice]
        { reqDupAdmin with role := .customer }).1
      = .err 400 "User already exists" ∧
    (403 : Nat) ≠ 400 := by decide

/-- C8 counterexample: a persistence failure while authenticating a request
(the user fetch in get_current_user raising) is caught by the blanket
handler and surfaced as 401 "Authentication failed" — an authentication
failure, not the 500 Internal error the claim prescribes. -/
theorem auth_store_failure_is_401 :
    get_current_user envX 1 tokValid (.error "db down") (.ok ())
      = .error ⟨401, "Authentication failed"⟩ ∧
    (401 : Nat) ≠ 500 := ⟨by rfl, by decide⟩

/-- uAlice with four failed attempts already recorded. -/
def uAlice4 : User := { uAlice with failed_login_attempts := 4 }

/-! ## Claim theorems -/

/-- C1 (amended: the post-lockout success conjunct additionally requires the
account to be active, since the active-status check runs between password
verification and the counter reset). For every account: (a) in the Unlocked
state, a wrong-password attempt whose incremented counter reaches 5 persists
the counter and sets lockedUntil = now + 30 minutes; (b) while lockedUntil
is in the future every attempt — even with the correct password — fails with
the lock error; (c) for an active account, once lockedUntil has passed a
correct-password login succeeds, resets failedLoginAttempts to 0 and clears
lockedUntil. -/
theorem lockout_state_machine_active (env : Env) (now : Nat) (jti : String)
    (store : List User) (email password : String) (u : User)
    (hf : findByEmail store email = some u) :
    (lockedNow u now = false → verify_password env password u.password = false →
      5 ≤ u.failed_login_attempts + 1 →
      login_user env now jti store email password =
        (.err 401 "Invalid credentials",
         update_one_by_id store u.id
           { u with failed_login_attempts := u.failed_login_attempts + 1,
                    locked_until := some (now + LOCKOUT_SECONDS) }))
    ∧ (∀ t, u.locked_until = some t → now < t →
        login_user env now jti store email password =
          (.err 401 "Account temporarily locked", store))
    ∧ (∀ t, u.locked_until = some t → t ≤ now → u.is_active = true →
        verify_password env password u.password = true →
        login_user env now jti store email password =
          (.ok (create_jwt_token env now jti u.id u.role.value)
             { id := u.id, email := u.email, role := u.role, name := u.name },
           update_one_by_id store u.id
             { u with failed_login_attempts := 0, locked_until := none,
                      last_login := some now })) := by
  refine ⟨?_, ?_, ?_⟩
  · intro h1 h2 h3
    have hw : wrongPwUpdate u now =
        { u with failed_login_attempts := u.failed_login_attempts + 1,
                 locked_until := some (now + LOCKOUT_SECONDS) } := by
      simp [wrongPwUpdate, if_pos h3]
    simp only [login_user, hf, login_attempt_wrong h1 h2, hw]
  · intro t ht hnow
    have hl : lockedNow u now = true := by
      simp only [lockedNow, ht, decide_eq_true_eq]
      exact hnow
    simp only [login_user, hf, login_attempt_locked hl]
  · intro t ht hnow hact hpw
    have hl : lockedNow u now = false := by
      simp only [lockedNow, ht, decide_eq_false_iff_not]
      omega
    simp only [login_user, hf, login_attempt_success hl hpw hact, successUpdate]

/-- Witness for C1: uAlice4 at counter 4 is locked by one more wrong attempt
at time 500; uDanLocked rejects the correct password at time 0 while locked
until 1000; uDanLocked logs in successfully at time 1000 and is reset. -/
theorem lockout_state_machine_active_witness :
    (login_user envX 500 "jw" [uAlice4] "alice@x.com" "wrongpw" =
      (.err 401 "Invalid credentials",
       update_one_by_id [uAlice4] uAlice4.id
         { uAlice4 with failed_login_attempts := uAlice4.failed_login_attempts + 1,
                        locked_until := some (500 + LOCKOUT_SECONDS) })) ∧
    (login_user envX 0 "jw" [uDanLocked] "dan@x.com" "GoodPw1" =
      (.err 401 "Account temporarily locked", [uDanLocked])) ∧
    (login_user envX 1000 "jw" [uDanLocked] "dan@x.com" "GoodPw1" =
      (.ok (create_jwt_token envX 1000 "jw" uDanLocked.id uDanLocked.role.value)
         { id := uDanLocked.id, email := uDanLocked.email, role := uDanLocked.role,
           name := uDanLocked.name },
       update_one_by_id [uDanLocked] uDanLocked.id
         { uDanLocked with failed_login_attempts := 0, locked_until := none,
                           last_login := some 1000 })) := by
  refine ⟨?_, ?_, ?_⟩
  · exact (lockout_state_machine_active envX 500 "jw" [uAlice4] "alice@x.com"
      "wrongpw" uAlice4 (by decide)).1 (by decide) (by decide) (by decide)
  · exact (lockout_state_machine_active envX 0 "jw" [uDanLocked] "dan@x.com"
      "GoodPw1" uDanLocked (by decide)).2.1 1000 (by decide) (by decide)
  · exact (lockout_state_machine_active envX 1000 "jw" [uDanLocked] "dan@x.com"
      "GoodPw1" uDanLocked (by decide)).2.2 1000 (by decide) (by decide)
      (by decide) (by decide)

/-- C7: `verify_password` is a total boolean function (it cannot throw, by
its `Bool` return type), and whenever the underlying `bcrypt.checkpw` raises
— e.g. on a malformed hash string — it returns false. -/
theorem verify_password_malformed_false (env : Env) (password hashed e : String)
    (hmal : env.checkpw password hashed = .error e) :
    verify_password env password hashed = false := by
  simp [verify_password, hmal]

/-- Witness for C7: an environment whose checkpw raises on every input. -/
theorem verify_password_malformed_false_witness :
    envBadHash.checkpw "Passw0rd1" "not-a-bcrypt-hash" = .error "Invalid salt" ∧
    verify_password envBadHash "Passw0rd1" "not-a-bcrypt-hash" = false :=
  ⟨rfl, verify_password_malformed_false envBadHash "Passw0rd1" "not-a-bcrypt-hash"
    "Invalid salt" rfl⟩

/-- C8 (amended: only the login/register handlers translate a persistence
failure to 500 Internal; a store failure during request authentication is
caught by get_current_user's blanket handler and surfaces as 401
"Authentication failed", i.e. as an authentication failure). -/
theorem store_failure_translation (env : Env) (now : Nat) (tok : Jwt)
    (find_result : Except String (Option User)) (upd : Except String Unit)
    (payload : JwtPayload) (e : String) (jti password : String) :
    (verify_jwt_token env now tok = .ok payload → find_result = .error e →
      get_current_user env now tok find_result upd
        = .error ⟨401, "Authentication failed"⟩) ∧
    (find_result = .error e →
      (login_user_db env now jti find_result password).1
        = .err 500 "Login failed") := by
  constructor
  · intro hv hf
    simp [get_current_user, hv, hf]
  · intro hf
    simp [login_user_db, hf]

/-- Witness for C8: a concrete valid token with a failing store. -/
theorem store_failure_translation_witness :
    (get_current_user envX 1 tokValid (.error "timeout") (.ok ())
       = .error ⟨401, "Authentication failed"⟩) ∧
    ((login_user_db envX 1 "j8" (.error "timeout") "pw").1
       = .err 500 "Login failed") := by
  have h := store_failure_translation envX 1 tokValid (.error "timeout") (.ok ())
    tokValid.payload "timeout" "j8" "pw"
  exact ⟨h.1 (by rfl) rfl, h.2 rfl⟩

/-- C9: for an account with is_active = false that is not currently locked,
a wrong-password attempt still increments failedLoginAttempts (locking the
account when the threshold is reached) and fails with the generic
invalid-credentials error; the disabled-account error is returned exactly
when the supplied password is correct, because the active-status check runs
after password verification. -/
theorem inactive_wrong_password_increments (env : Env) (now : Nat) (jti : String)
    (store : List User) (email password : String) (u : User)
    (hf : findByEmail store email = some u)
    (hin : u.is_active = false)
    (hl : lockedNow u now = false) :
    (verify_password env password u.password = false →
      login_user env now jti store email password =
        (.err 401 "Invalid credentials",
         update_one_by_id store u.id (wrongPwUpdate u now)) ∧
      (wrongPwUpdate u now).failed_login_attempts = u.failed_login_attempts + 1 ∧
      (5 ≤ u.failed_login_attempts + 1 →
        (wrongPwUpdate u now).locked_until = some (now + LOCKOUT_SECONDS)))
    ∧ ((login_user env now jti store email password).1 = .err 401 "Account is disabled"
        ↔ verify_password env password u.password = true) := by
  constructor
  · intro hw
    refine ⟨?_, wrongPwUpdate_failed u now, ?_⟩
    · simp only [login_user, hf, login_attempt_wrong hl hw]
    · intro h5
      simp [wrongPwUpdate, if_pos h5]
  · constructor
    · intro hres
      by_cases hw : verify_password env password u.password = true
      · exact hw
      · exfalso
        have hw' : verify_password env password u.password = false := by simpa using hw
        have e : (login_user env now jti store email password).1
            = .err 401 "Invalid credentials" := by
          simp only [login_user, hf, login_attempt_wrong hl hw']
        rw [e] at hres
        injection hres with h1 h2
        exact absurd h2 (by decide)
    · intro hw
      simp only [login_user, hf, login_attempt_disabled hl hw hin]

/-- Witness for C9: uBobInactive (inactive, lock expired, counter 5) at time
200 with a wrong password. -/
theorem inactive_wrong_password_increments_witness :
    (login_user envX 200 "j9" [uBobInactive] "bob@x.com" "nope" =
       (.err 401 "Invalid credentials",
        update_one_by_id [uBobInactive] uBobInactive.id
          (wrongPwUpdate uBobInactive 200)) ∧
     (wrongPwUpdate uBobInactive 200).failed_login_attempts
        = uBobInactive.failed_login_attempts + 1 ∧
     (5 ≤ uBobInactive.failed_login_attempts + 1 →
        (wrongPwUpdate uBobInactive 200).locked_until
          = some (200 + LOCKOUT_SECONDS))) ∧
    ((login_user envX 200 "j9" [uBobInactive] "bob@x.com" "nope").1
        = .err 401 "Account is disabled"
      ↔ verify_password envX "nope" uBobInactive.password = true) := by
  have h := inactive_wrong_password_increments envX 200 "j9" [uBobInactive]
    "bob@x.com" "nope" uBobInactive (by decide) (by decide) (by decide)
  exact ⟨h.1 (by decide), h.2⟩

/-- C10: in any reachable store, an account whose lockedUntil is recorded
(here: has passed, with no intervening successful login — a success would
have cleared it) still carries failedLoginAttempts ≥ 5, so one single
wrong-password attempt immediately persists counter+1 and a fresh
lockedUntil = now + 30 minutes. -/
theorem expired_lock_single_attempt_relocks (env : Env) (now : Nat) (jti : String)
    (store : List User) (email password : String) (u : User) (t : Nat)
    (hr : Reachable env store)
    (hf : findByEmail store email = some u)
    (ht : u.locked_until = some t)
    (hpast : t ≤ now)
    (hwrong : verify_password env password u.password = false) :
    5 ≤ u.failed_login_attempts ∧
    login_user env now jti store email password =
      (.err 401 "Invalid credentials",
       update_one_by_id store u.id
         { u with failed_login_attempts := u.failed_login_attempts + 1,
                  locked_until := some (now + LOCKOUT_SECONDS) }) := by
  have h5 : 5 ≤ u.failed_login_attempts :=
    reachable_lock_inv hr u (findByEmail_mem hf) t ht
  have hl : lockedNow u now = false := by
    simp only [lockedNow, ht, decide_eq_false_iff_not]
    omega
  refine ⟨h5, ?_⟩
  have h51 : 5 ≤ u.failed_login_attempts + 1 := by omega
  have hw : wrongPwUpdate u now =
      { u with failed_login_attempts := u.failed_login_attempts + 1,
               locked_until := some (now + LOCKOUT_SECONDS) } := by
    simp [wrongPwUpdate, if_pos h51]
  simp only [login_user, hf, login_attempt_wrong hl hwrong, hw]

/-- Witness for C10: storeEveLocked is reached from the fresh store [uEve]
by five wrong-password attempts at time 0; at time 1800 the lock has just
expired and a single further wrong attempt re-locks until 1800 + 30 min. -/
theorem expired_lock_single_attempt_relocks_witness :
    5 ≤ uEveLocked.failed_login_attempts ∧
    login_user envX 1800 "w6" storeEveLocked "eve@x.com" "bad" =
      (.err 401 "Invalid credentials",
       update_one_by_id storeEveLocked uEveLocked.id
         { uEveLocked with
             failed_login_attempts := uEveLocked.failed_login_attempts + 1,
             locked_until := some (1800 + LOCKOUT_SECONDS) }) := by
  have h0 : Reachable envX [uEve] := by
    apply Reachable.init
    intro u hu
    rw [List.mem_singleton] at hu
    subst hu
    exact ⟨rfl, rfl⟩
  have h1 : Reachable envX [{ uEve with failed_login_attempts := 1 }] := by
    have h := Reachable.login [uEve] 0 "w" "eve@x.com" "bad" h0
    have e : (login_user envX 0 "w" [uEve] "eve@x.com" "bad").2
        = [{ uEve with failed_login_attempts := 1 }] := by decide
    rwa [e] at h
  have h2 : Reachable envX [{ uEve with failed_login_attempts := 2 }] := by
    have h := Reachable.login _ 0 "w" "eve@x.com" "bad" h1
    have e : (login_user envX 0 "w" [{ uEve with failed_login_attempts := 1 }]
        "eve@x.com" "bad").2 = [{ uEve with failed_login_attempts := 2 }] := by decide
    rwa [e] at h
  have h3 : Reachable envX [{ uEve with failed_login_attempts := 3 }] := by
    have h := Reachable.login _ 0 "w" "eve@x.com" "bad" h2
    have e : (login_user envX 0 "w" [{ uEve with failed_login_attempts := 2 }]
        "eve@x.com" "bad").2 = [{ uEve with failed_login_attempts := 3 }] := by decide
    rwa [e] at h
  have h4 : Reachable envX [{ uEve with failed_login_attempts := 4 }] := by
    have h := Reachable.login _ 0 "w" "eve@x.com" "bad" h3
    have e : (login_user envX 0 "w" [{ uEve with failed_login_attempts := 3 }]
        "eve@x.com" "bad").2 = [{ uEve with failed_login_attempts := 4 }] := by decide
    rwa [e] at h
  have h5 : Reachable envX storeEveLocked := by
    have h := Reachable.login _ 0 "w" "eve@x.com" "bad" h4
    have e : (login_user envX 0 "w" [{ uEve with failed_login_attempts := 4 }]
        "eve@x.com" "bad").2 = storeEveLocked := by decide
    rwa [e] at h
  exact expired_lock_single_attempt_relocks envX 1800 "w6" storeEveLocked
    "eve@x.com" "bad" uEveLocked 1800 h5 (by decide) (by decide) (by decide)
    (by decide)

/-- C6: a successful login of an active, unlocked account with the correct
password returns a token that verifies (at any time up to its expiry) to a
payload carrying the same subject id and the same role as the account. -/
theorem login_token_roundtrip (env : Env) (now : Nat) (jti : String)
    (store : List User) (email password : String) (u : User)
    (hf : findByEmail store email = some u)
    (hl : lockedNow u now = false)
    (hpw : verify_password env password u.password = true)
    (hact : u.is_active = true) :
    ∃ tok pu, (login_user env now jti store email password).1 = .ok tok pu ∧
      tok.payload.user_id = u.id ∧ tok.payload.role = u.role.value ∧
      ∀ t, t ≤ tok.payload.exp →
        verify_jwt_token env t tok = .ok tok.payload := by
  refine ⟨create_jwt_token env now jti u.id u.role.value,
    { id := u.id, email := u.email, role := u.role, name := u.name },
    ?_, rfl, rfl, ?_⟩
  · simp only [login_user, hf, login_attempt_success hl hpw hact]
  · intro t htle
    have hne : ¬ (create_jwt_token env now jti u.id u.role.value).payload.exp < t :=
      Nat.not_lt.mpr htle
    simp only [verify_jwt_token]
    rw [if_pos ⟨rfl, rfl⟩, if_neg hne]

/-- Witness for C6: uAlice logs in at time 7 and the issued token verifies
back to subject u1 with role admin at a time within the expiry window. -/
theorem login_token_roundtrip_witness :
    ∃ tok pu, (login_user envX 7 "j6" [uAlice] "alice@x.com" "Passw0rd1").1
        = .ok tok pu ∧
      tok.payload.user_id = uAlice.id ∧ tok.payload.role = uAlice.role.value ∧
      ∀ t, t ≤ tok.payload.exp →
        verify_jwt_token envX t tok = .ok tok.payload :=
  login_token_roundtrip envX 7 "j6" [uAlice] "alice@x.com" "Passw0rd1" uAlice
    (by decide) (by decide) (by decide) (by decide)

/-- C4 (amended: every failed login is surfaced with HTTP status 401, and
unknown-email and wrong-password failures share the uniform message
"Invalid credentials" — so email existence is not revealed — but locked and
disabled accounts receive distinct messages, revealing those states). -/
theorem login_failures_all_401 (env : Env) (now : Nat) (jti : String)
    (store : List User) (email password : String) :
    (∀ s d, (login_user env now jti store email password).1 = .err s d → s = 401) ∧
    (findByEmail store email = none →
      (login_user env now jti store email password).1
        = .err 401 "Invalid credentials") ∧
    (∀ u, findByEmail store email = some u → lockedNow u now = false →
      verify_password env password u.password = false →
      (login_user env now jti store email password).1
        = .err 401 "Invalid credentials") := by
  refine ⟨?_, ?_, ?_⟩
  · intro s d h
    cases hfe : findByEmail store email with
    | none =>
      simp only [login_user, hfe] at h
      injection h with h1 _
      exact h1.symm
    | some u0 =>
      rcases login_attempt_pair_cases env now jti u0 password with
        ⟨heq, _⟩ | ⟨heq, _⟩ | ⟨heq, _⟩ | ⟨heq, _⟩
      · simp only [login_user, hfe, heq] at h
        injection h with h1 _
        exact h1.symm
      · simp only [login_user, hfe, heq] at h
        injection h with h1 _
        exact h1.symm
      · simp only [login_user, hfe, heq] at h
        injection h with h1 _
        exact h1.symm
      · simp only [login_user, hfe, heq] at h
        exact AuthResult.noConfusion h
  · intro hfe
    simp [login_user, hfe]
  · intro u hfe hl hw
    simp only [login_user, hfe, login_attempt_wrong hl hw]

/-- Witness for C4: a wrong password on an existing account and any password
on an unknown email produce the same 401 "Invalid credentials". -/
theorem login_failures_all_401_witness :
    ((login_user envX 3 "j4w" [uAlice] "alice@x.com" "badpw").1
        = .err 401 "Invalid credentials") ∧
    ((login_user envX 3 "j4w" [uAlice] "ghost@x.com" "badpw").1
        = .err 401 "Invalid credentials") := by
  have h1 := login_failures_all_401 envX 3 "j4w" [uAlice] "alice@x.com" "badpw"
  have h2 := login_failures_all_401 envX 3 "j4w" [uAlice] "ghost@x.com" "badpw"
  exact ⟨h1.2.2 uAlice (by decide) (by decide) (by decide), h2.2.1 (by decide)⟩

/-- C3: across any login attempt, each stored failedLoginAttempts counter
either stays unchanged, is incremented by exactly 1 (and then the attempt
was a wrong password against the not-currently-locked target account, with
the generic 401), or is reset to 0 (and then the login succeeded); starting
from non-negative counters, all counters stay non-negative. In particular
the counter is never incremented while the account is locked. -/
theorem failed_attempts_counter_changes (env : Env) (now : Nat) (jti : String)
    (store : List User) (email password : String)
    (hnn : ∀ u ∈ store, 0 ≤ u.failed_login_attempts)
    (hnd : (store.map User.id).Nodup) :
    (∀ u' ∈ (login_user env now jti store email password).2,
       0 ≤ u'.failed_login_attempts) ∧
    (∀ i u u', store.get? i = some u →
      (login_user env now jti store email password).2.get? i = some u' →
      u'.failed_login_attempts = u.failed_login_attempts ∨
      (u'.failed_login_attempts = u.failed_login_attempts + 1 ∧
        lockedNow u now = false ∧
        verify_password env password u.password = false ∧
        (login_user env now jti store email password).1
          = .err 401 "Invalid credentials") ∨
      (u'.failed_login_attempts = 0 ∧
        ∃ tok pu, (login_user env now jti store email password).1
          = .ok tok pu)) := by
  cases hfe : findByEmail store email with
  | none =>
    have e2 : (login_user env now jti store email password).2 = store := by
      simp [login_user, hfe]
    constructor
    · intro u' hu'
      rw [e2] at hu'
      exact hnn u' hu'
    · intro i u u' hg hg'
      rw [e2, hg] at hg'
      exact Or.inl (by rw [← Option.some.inj hg'])
  | some u0 =>
    have hmem0 := findByEmail_mem hfe
    rcases login_attempt_pair_cases env now jti u0 password with
      ⟨heq, _⟩ | ⟨heq, hl0, hw0⟩ | ⟨heq, _⟩ | ⟨heq, hl0, hw0, hact0⟩
    · have e2 : (login_user env now jti store email password).2 = store := by
        simp [login_user, hfe, heq]
      constructor
      · intro u' hu'
        rw [e2] at hu'
        exact hnn u' hu'
      · intro i u u' hg hg'
        rw [e2, hg] at hg'
        exact Or.inl (by rw [← Option.some.inj hg'])
    · have e1 : (login_user env now jti store email password).1
          = .err 401 "Invalid credentials" := by
        simp [login_user, hfe, heq]
      have e2 : (login_user env now jti store email password).2
          = update_one_by_id store u0.id (wrongPwUpdate u0 now) := by
        simp [login_user, hfe, heq]
      constructor
      · intro u' hu'
        rw [e2] at hu'
        rcases update_one_mem hu' with hm | hm
        · exact hnn u' hm
        · rw [hm, wrongPwUpdate_failed]
          have := hnn u0 hmem0
          omega
      · intro i u u' hg hg'
        rw [e2] at hg'
        rcases update_one_get? store u0.id (wrongPwUpdate u0 now) i with
          hcase | ⟨hnu, w, hw', hid⟩
        · rw [hcase, hg] at hg'
          exact Or.inl (by rw [← Option.some.inj hg'])
        · rw [hnu] at hg'
          have hu' : u' = wrongPwUpdate u0 now := (Option.some.inj hg').symm
          have huw : u = w := by
            rw [hg] at hw'
            exact Option.some.inj hw'
          have humem : u ∈ store := List.get?_mem hg
          have hu0 : u = u0 := nodup_id_unique hnd humem hmem0 (by rw [huw]; exact hid)
          right; left
          refine ⟨?_, ?_, ?_, e1⟩
          · rw [hu', wrongPwUpdate_failed, hu0]
          · rw [hu0]; exact hl0
          · rw [hu0]; exact hw0
    · have e2 : (login_user env now jti store email password).2 = store := by
        simp [login_user, hfe, heq]
      constructor
      · intro u' hu'
        rw [e2] at hu'
        exact hnn u' hu'
      · intro i u u' hg hg'
        rw [e2, hg] at hg'
        exact Or.inl (by rw [← Option.some.inj hg'])
    · have e1 : (login_user env now jti store email password).1
          = .ok (create_jwt_token env now jti u0.id u0.role.value)
              { id := u0.id, email := u0.email, role := u0.role,
                name := u0.name } := by
        simp [login_user, hfe, heq]
      have e2 : (login_user env now jti store email password).2
          = update_one_by_id store u0.id (successUpdate u0 now) := by
        simp [login_user, hfe, heq]
      constructor
      · intro u' hu'
        rw [e2] at hu'
        rcases update_one_mem hu' with hm | hm
        · exact hnn u' hm
        · rw [hm]
          simp [successUpdate]
      · intro i u u' hg hg'
        rw [e2] at hg'
        rcases update_one_get? store u0.id (successUpdate u0 now) i with
          hcase | ⟨hnu, w, hw', hid⟩
        · rw [hcase, hg] at hg'
          exact Or.inl (by rw [← Option.some.inj hg'])
        · rw [hnu] at hg'
          have hu' : u' = successUpdate u0 now := (Option.some.inj hg').symm
          right; right
          exact ⟨by rw [hu']; rfl, _, _, e1⟩

/-- Witness for C3: a wrong-password attempt against the singleton store
holding uAlice, with concrete non-negativity and id-uniqueness facts. -/
theorem failed_attempts_counter_changes_witness :
    (∀ u' ∈ (login_user envX 3 "jc" [uAlice] "alice@x.com" "badpw").2,
       0 ≤ u'.failed_login_attempts) ∧
    (∀ i u u', [uAlice].get? i = some u →
      (login_user envX 3 "jc" [uAlice] "alice@x.com" "badpw").2.get? i = some u' →
      u'.failed_login_attempts = u.failed_login_attempts ∨
      (u'.failed_login_attempts = u.failed_login_attempts + 1 ∧
        lockedNow u 3 = false ∧
        verify_password envX "badpw" u.password = false ∧
        (login_user envX 3 "jc" [uAlice] "alice@x.com" "badpw").1
          = .err 401 "Invalid credentials") ∨
      (u'.failed_login_attempts = 0 ∧
        ∃ tok pu, (login_user envX 3 "jc" [uAlice] "alice@x.com" "badpw").1
          = .ok tok pu)) :=
  failed_attempts_counter_changes envX 3 "jc" [uAlice] "alice@x.com" "badpw"
    (by decide) (by decide)

end PureMilk
